import Mathlib

/-!
Verification development for the data-normalization pipeline of an
evacuation-center dashboard (`app.py`, function `load_data`).

The pipeline is shallowly embedded: Python values that matter to the
pipeline (the raw `capacity` property, geometry descriptors, feature
properties, the assembled rows) become Lean inductive types and
structures; the per-feature loop becomes a recursive function into
`Except String`, where `Except.error` models a raised Python exception
(caught by the single `try/except` at the pipeline boundary).

Numeric modelling notes:
* Python ints are `Int` (arbitrary precision, as in Python).
* Coordinates are `ℚ`; `numpy.mean` over a ring of vertices is the exact
  rational mean (floating point round-off is not modelled).
* The float comparisons `occ >= real_cap * 0.8` and `int(real_cap * 1.5)`
  are embedded exactly as `4 * real_cap ≤ 5 * occ` and `3 * real_cap / 2`.
  For every capacity magnitude the program can see (well below `2^51`)
  the IEEE-754 double computations in the source agree with these exact
  forms: `0.8` rounds to `0.8·(1 + 2^-54)`, and multiplying by an integer
  `n < 2^51` never moves the product across an integer boundary, while
  `1.5` and `n * 1.5` are exactly representable.
* `str.isdigit` is modelled for ASCII strings (the source data's
  alphabet); Python `int()` parsing is modelled with an optional sign and
  ASCII digits (underscore separators and Unicode digits are not
  modelled, no claim depends on them).
-/

/-- A raw JSON property value as far as the capacity logic can observe it:
absent (`props.get` returned `None`), a string, or an integer. -/
inductive RawCap where
  | none
  | str (s : String)
  | int (n : Int)
deriving DecidableEq, Repr

/-- Python truthiness of a raw capacity value (`if raw_cap:`). -/
def pyTruthy : RawCap → Bool
  | .none => false
  | .str s => !s.data.isEmpty
  | .int n => n != 0

/-- Python `str(raw_cap)`. `toString` on `Int` agrees with Python's
rendering (digits, with a leading `-` for negatives). -/
def pyStr : RawCap → String
  | .none => "None"
  | .str s => s
  | .int n => toString n

/-- Python `str.isdigit` restricted to ASCII: nonempty and all digits. -/
def pyIsDigit (s : String) : Bool :=
  !s.data.isEmpty && s.data.all Char.isDigit

/-- Numeric value of a list of ASCII digit characters. -/
def digitsToNat (cs : List Char) : Nat :=
  cs.foldl (fun a c => 10 * a + (c.toNat - 48)) 0

/-- Python `int(s)` on a string that passed `isdigit`. -/
def intOfDigitStr (s : String) : Int :=
  (digitsToNat s.data : Int)

/-- Python `int(s)` as a fallible parse: optional `+`/`-` sign followed by
one or more ASCII digits; anything else raises (`Option.none`). -/
def pyInt (s : String) : Option Int :=
  match s.data with
  | [] => Option.none
  | c :: rest =>
      if c = '-' then
        if !rest.isEmpty && rest.all Char.isDigit then some (-(digitsToNat rest : Int)) else Option.none
      else if c = '+' then
        if !rest.isEmpty && rest.all Char.isDigit then some (digitsToNat rest : Int) else Option.none
      else if (c :: rest).all Char.isDigit then some (digitsToNat (c :: rest) : Int)
      else Option.none

/-- Python `str.split(sep)` for a one-character separator, on the
character list: splits at every occurrence, keeping empty pieces. -/
def splitOnChar (c : Char) : List Char → List (List Char)
  | [] => [[]]
  | x :: xs =>
      if x = c then [] :: splitOnChar c xs
      else
        match splitOnChar c xs with
        | [] => [[x]]
        | h :: t => (x :: h) :: t

/-- Python `s.split(sep)` for a one-character separator. -/
def pySplit (s : String) (c : Char) : List String :=
  (splitOnChar c s.data).map String.mk

/-- Python substring containment `needle in hay`. -/
def strContains (hay needle : String) : Bool :=
  (List.range (hay.data.length + 1)).any (fun i => needle.data.isPrefixOf (hay.data.drop i))

/-- The capacity logic of `load_data` (`app.py` lines 42-49), verbatim:

    real_cap = 100
    if raw_cap:
        if str(raw_cap).isdigit(): real_cap = int(raw_cap)
        elif '-' in str(raw_cap):
            try: real_cap = (int(raw_cap.split('-')[0]) + int(raw_cap.split('-')[1])) // 2
            except: pass
        elif '>500' in str(raw_cap): real_cap = 600

`raw_cap.split` on a non-string raises `AttributeError`, swallowed by the
inner `except` (so the default 100 stands); likewise any failing `int()`
inside the range branch. Python `//` is floor division, `Int.fdiv`. -/
def parse_capacity (raw_cap : RawCap) : Int :=
  if pyTruthy raw_cap then
    if pyIsDigit (pyStr raw_cap) then
      match raw_cap with
      | .str s => intOfDigitStr s
      | .int n => n
      | .none => 100
    else if (pyStr raw_cap).data.contains '-' then
      match raw_cap with
      | .str s =>
          let parts := pySplit s '-'
          match pyInt (parts.getD 0 ""), pyInt (parts.getD 1 "") with
          | some a, some b => Int.fdiv (a + b) 2
          | _, _ => 100
      | _ => 100
    else if strContains (pyStr raw_cap) ">500" then 600
    else 100
  else 100

instance exceptDecEq {ε α : Type} [DecidableEq ε] [DecidableEq α] : DecidableEq (Except ε α) :=
  fun x y =>
    match x, y with
    | .ok a, .ok b =>
        if h : a = b then isTrue (by rw [h]) else isFalse (fun hh => h (by cases hh; rfl))
    | .error a, .error b =>
        if h : a = b then isTrue (by rw [h]) else isFalse (fun hh => h (by cases hh; rfl))
    | .ok _, .error _ => isFalse (fun hh => Except.noConfusion hh)
    | .error _, .ok _ => isFalse (fun hh => Except.noConfusion hh)

/-- A geometry descriptor as the loop reads it: `geom['type']` selects the
branch, `geom['coordinates']` is the nested numeric structure. Kinds other
than the three handled ones are collapsed into `other` (the chain of `if`s
leaves `lon, lat = None, None` for them). -/
inductive PyGeom where
  | point (coords : List ℚ)
  | polygon (coords : List (List (List ℚ)))
  | multiPolygon (coords : List (List (List (List ℚ))))
  | other (kind : String)
deriving DecidableEq, Repr

/-- Mean of longitudes and latitudes over one ring, as
`np.array(ring)` / `coords[:, 0].mean()` / `coords[:, 1].mean()` behave:
* an empty ring gives a 1-D empty array, and `coords[:, 0]` raises
  `IndexError` (too many indices);
* rows of unequal length give a ragged array, which numpy rejects
  (`ValueError`, inhomogeneous shape);
* rows shorter than 2 make `coords[:, 1]` (or `[:, 0]`) raise `IndexError`;
* otherwise columns 0 and 1 are averaged exactly. -/
def meanRing (ring : List (List ℚ)) : Except String (Option (ℚ × ℚ)) :=
  match ring with
  | [] => .error "IndexError: too many indices for array"
  | p :: ps =>
      if (p :: ps).all (fun q => q.length = p.length) then
        if 2 ≤ p.length then
          let n : ℚ := (ring.length : ℚ)
          .ok (some (((ring.map (fun q => q.headD 0)).sum / n,
                      (ring.map (fun q => q.getD 1 0)).sum / n)))
        else .error "IndexError: index out of bounds"
      else .error "ValueError: inhomogeneous shape"

/-- The geometry engine of `load_data` (`app.py` lines 32-39). Result
`Except.ok (some (lon, lat))` is a resolved coordinate, `Except.ok none`
is `lon, lat = None, None` (unsupported kind), `Except.error` is a raised
exception (malformed coordinate structure):
* `Point`: `lon, lat = geom['coordinates']` — tuple unpacking raises
  `ValueError` unless the array has exactly two entries;
* `Polygon`: first ring `geom['coordinates'][0]` (raising `IndexError` on
  an empty ring list) is averaged per `meanRing`;
* `MultiPolygon`: first ring of the first polygon, likewise;
* anything else: both coordinates absent. -/
def resolve_geometry : PyGeom → Except String (Option (ℚ × ℚ))
  | .point cs =>
      match cs with
      | [lonV, latV] => .ok (some (lonV, latV))
      | _ => .error "ValueError: cannot unpack coordinates"
  | .polygon rings =>
      match rings with
      | [] => .error "IndexError: list index out of range"
      | ring :: _ => meanRing ring
  | .multiPolygon polys =>
      match polys with
      | [] => .error "IndexError: list index out of range"
      | rings :: _ =>
          match rings with
          | [] => .error "IndexError: list index out of range"
          | ring :: _ => meanRing ring
  | .other _ => .ok Option.none

/-- Logistics status (`app.py` lines 56-59). The float comparison
`occ >= real_cap * 0.8` is embedded exactly as `4 * real_cap ≤ 5 * occ`
(see the header note on floats). -/
def cap_status (occ real_cap : Int) : String :=
  if real_cap < occ then "Overcrowded (>100%)"
  else if 4 * real_cap ≤ 5 * occ then "Near Full (80-99%)"
  else "Available (<80%)"

/-- Health status (`app.py` lines 63-66): the same two conditions as
`cap_status`, with health-oriented labels. -/
def health_risk (occ real_cap : Int) : String :=
  if real_cap < occ then "CRITICAL: High Infection Risk"
  else if 4 * real_cap ≤ 5 * occ then "WARNING: Elevated Density"
  else "SAFE: Social Distancing Possible"

/-- Models `np.random.randint(0, hi)` applied to the draw `r` of a uniform
entropy stream: the draw reduced modulo `hi`. Faithful only for `0 < hi`;
the caller models numpy's `ValueError` for an empty range separately. -/
def np_random_randint (r : Nat) (hi : Int) : Int :=
  (r : Int) % hi

/-- The `properties` mapping of a raw feature, as far as the loop reads
it: `name`, `type`, `province` (absent or a string) and `capacity`.
`ftype` stands for the JSON key `type` (a reserved name in Lean). -/
structure PyProps where
  name : Option String
  ftype : Option String
  province : Option String
  capacity : RawCap
deriving DecidableEq, Repr

/-- One entry of `geo_data['features']`. -/
structure Feature where
  geometry : PyGeom
  properties : PyProps
deriving DecidableEq, Repr

/-- Python `x or default` for an optional string property: the default is
substituted when the value is absent (`None`) or falsy (the empty
string). -/
def pyOr (v : Option String) (d : String) : String :=
  match v with
  | Option.none => d
  | some s => if s.data.isEmpty then d else s

/-- One element of `geo_rows` (`app.py` lines 72-84). `last_ping_days_ago`
stands for `Last_Sensor_Ping = today - days_ago` (only the random offset
is modelled, not the calendar date); `ftype` stands for the key `Type`. -/
structure GeoRow where
  center_name : String
  ftype : String
  province : String
  capacity : Int
  current_evacuees : Int
  capacity_status : String
  health_risk : String
  last_ping_days_ago : Nat
  lat : Option ℚ
  lon : Option ℚ
  source : String
deriving DecidableEq, Repr

/-- One iteration of the feature loop (`app.py` lines 27-84). `occs` and
`dates` are the entropy streams consumed by the two `np.random.randint`
calls, indexed by the feature's position `i`. `np.random.randint(0, hi)`
raises `ValueError` when `hi <= 0` (here: when the parsed capacity is 0,
since `hi = int(real_cap * 1.5)`). -/
def mkRow (occs dates : Nat → Nat) (i : Nat) (f : Feature) (coord : Option (ℚ × ℚ)) : GeoRow :=
  { center_name := pyOr f.properties.name "Unnamed Facility"
  , ftype := pyOr f.properties.ftype "Unknown"
  , province := pyOr f.properties.province "Unspecified"
  , capacity := parse_capacity f.properties.capacity
  , current_evacuees := np_random_randint (occs i) (3 * parse_capacity f.properties.capacity / 2)
  , capacity_status := cap_status (np_random_randint (occs i) (3 * parse_capacity f.properties.capacity / 2))
      (parse_capacity f.properties.capacity)
  , health_risk := health_risk (np_random_randint (occs i) (3 * parse_capacity f.properties.capacity / 2))
      (parse_capacity f.properties.capacity)
  , last_ping_days_ago := dates i % 3
  , lat := coord.map Prod.snd
  , lon := coord.map Prod.fst
  , source := "GeoJSON" }

/-- One iteration of the feature loop, split into the raising steps.
`mkRow` above is the row dict appended at `app.py` lines 72-84
(`real_cap` and `hi = int(real_cap * 1.5)` are inlined). -/
def assembleRow (occs dates : Nat → Nat) (i : Nat) (f : Feature) : Except String GeoRow :=
  match resolve_geometry f.geometry with
  | .error e => .error e
  | .ok coord =>
      if 0 < 3 * parse_capacity f.properties.capacity / 2 then
        .ok (mkRow occs dates i f coord)
      else .error "ValueError: low >= high"

/-- The feature loop: rows are appended in order until the first raised
exception (if any) aborts the whole load. -/
def assembleRows (occs dates : Nat → Nat) (i : Nat) : List Feature → Except String (List GeoRow)
  | [] => .ok []
  | f :: fs =>
      match assembleRow occs dates i f with
      | .error e => .error e
      | .ok r =>
          match assembleRows occs dates (i + 1) fs with
          | .error e => .error e
          | .ok rs => .ok (r :: rs)

/-- Whether a row survives `dropna(subset=['lat', 'lon'])`. -/
def coordP (r : GeoRow) : Bool :=
  r.lat.isSome && r.lon.isSome

/-- The step `df_geo = pd.DataFrame(geo_rows); df_geo.dropna(subset=['lat', 'lon'])`.
When `geo_rows` is empty, `pd.DataFrame([])` has no columns at all, and
pandas `dropna` with a `subset` of missing columns raises `KeyError`;
otherwise every row dict carries the `lat`/`lon` keys and the rows with a
missing value in either are dropped. -/
def dropnaLatLon (rows : List GeoRow) : Except String (List GeoRow) :=
  if rows.isEmpty then .error "KeyError: lat, lon"
  else .ok (rows.filter coordP)

/-- Lexicographic comparison of character lists by code point: exactly how
Python (and hence pandas `sort_values` on a string column) compares
strings. -/
def charListLe : List Char → List Char → Bool
  | [], _ => true
  | _ :: _, [] => false
  | a :: as, b :: bs =>
      if a.toNat < b.toNat then true
      else if b.toNat < a.toNat then false
      else charListLe as bs

/-- Python string comparison `a <= b`. -/
def strLe (a b : String) : Bool :=
  charListLe a.data b.data

/-- Sortedness by the `Province` column (non-strict, lexicographic string
order, as pandas compares Python strings). -/
def SortedByProvince (l : List GeoRow) : Prop :=
  l.Pairwise (fun a b => strLe a.province b.province = true)

/-- The contract of `df_geo.sort_values(by="Province")`: some permutation
of the input that is sorted by province. The tie order is deliberately
left unspecified: pandas' default sort kind is quicksort, which is
documented as not stable (a stable order would require
`sort_values(..., kind="stable")`). Any function satisfying this
predicate is an admissible implementation. -/
def IsPandasSortByProvince (sorter : List GeoRow → List GeoRow) : Prop :=
  ∀ rows : List GeoRow, (sorter rows).Perm rows ∧ SortedByProvince (sorter rows)

/-- One row of the Excel registry: its cells (column name to value) plus
the synthetic `Last_Audit` offset in days (absent before normalization).
Cell values are consumed opaquely; they are modelled as integers. -/
structure AdminRow where
  cells : List (String × Int)
  last_audit_days_ago : Option Nat
deriving DecidableEq, Repr

/-- The registry steps (`app.py` lines 96-102): rename the column
`Number of Evacuation Center` to `Official_Count` when present (renaming
cell-wise is equivalent to pandas' frame-wide rename, since a missing key
renames nothing), and attach `Last_Audit = today - randint(0, 90)` per
row, drawn from the `audits` entropy stream. -/
def normalizeRegistry (audits : Nat → Nat) (rows : List AdminRow) : List AdminRow :=
  (rows.enum).map (fun p =>
    { cells := p.2.cells.map (fun kv =>
        (if kv.1 = "Number of Evacuation Center" then "Official_Count" else kv.1, kv.2))
    , last_audit_days_ago := some (audits p.1 % 90) })

/-- What `load_data` hands to the presentation layer: the two frames plus
the diagnostic (`st.error`) text, `none` when no error was surfaced. -/
structure PipelineResult where
  df_geo : List GeoRow
  df_admin : List AdminRow
  diag : Option String
deriving DecidableEq, Repr

/-- The body of the `try:` block of `load_data`: read and assemble the
feature collection, drop unresolved coordinates, sort by province, then
read and normalize the registry. The two sources arrive as `Except`
values (`Except.error` models an unreadable/unparseable file; file I/O
itself is outside the pipeline). -/
def load_dataE (sorter : List GeoRow → List GeoRow) (occs dates audits : Nat → Nat)
    (geoSrc : Except String (List Feature)) (excelSrc : Except String (List AdminRow)) :
    Except String (List GeoRow × List AdminRow) :=
  match geoSrc with
  | .error e => .error e
  | .ok geo_data =>
      match assembleRows occs dates 0 geo_data with
      | .error e => .error e
      | .ok geo_rows =>
          match dropnaLatLon geo_rows with
          | .error e => .error e
          | .ok kept =>
              let df_geo := sorter kept
              match excelSrc with
              | .error e => .error e
              | .ok df_excel => .ok (df_geo, normalizeRegistry audits df_excel)

/-- `load_data` (`app.py` lines 17-108): the single `try/except` around
both sources. Any exception anywhere in the block is caught at the
boundary, surfaced once via `st.error(f"Critical Data Error: {e}")`, and
both frames come back empty. -/
def load_data (sorter : List GeoRow → List GeoRow) (occs dates audits : Nat → Nat)
    (geoSrc : Except String (List Feature)) (excelSrc : Except String (List AdminRow)) :
    PipelineResult :=
  match load_dataE sorter occs dates audits geoSrc excelSrc with
  | .ok (g, a) => { df_geo := g, df_admin := a, diag := Option.none }
  | .error e => { df_geo := [], df_admin := [], diag := some ("Critical Data Error: " ++ e) }

/-- The concrete sorter used to instantiate witnesses: Mathlib's stable
insertion sort on the province key (one admissible implementation of the
pandas contract). -/
def sortByProvince (rows : List GeoRow) : List GeoRow :=
  rows.insertionSort (fun a b => strLe a.province b.province = true)

/-- Another admissible implementation of the pandas contract: reverse the
input first, then stable-sort. On inputs with tied provinces it produces
the ties in reversed input order. -/
def revSortByProvince (rows : List GeoRow) : List GeoRow :=
  sortByProvince rows.reverse

/-- Constant-zero entropy stream, for concrete evaluations. -/
def zeroStream : Nat → Nat := fun _ => 0

/-- Split at the first occurrence of `c` only: the part before and the
part after (the whole list and `[]` when `c` does not occur). -/
def splitOnceOn (c : Char) : List Char → List Char × List Char
  | [] => ([], [])
  | x :: xs =>
      if x = c then ([], xs)
      else
        let p := splitOnceOn c xs
        (x :: p.1, p.2)

/-- Modelled from the spec wording of the range branch, for comparison
with the code (`parse_capacity`): split once on the FIRST `-`, parse both
sides as integers, return their floor-division average; if either side
fails to parse, fall back to 100. -/
def parse_capacity_spec_splitOnce (s : String) : Int :=
  match pyInt (String.mk (splitOnceOn '-' s.data).1),
        pyInt (String.mk (splitOnceOn '-' s.data).2) with
  | some a, some b => Int.fdiv (a + b) 2
  | _, _ => 100

/-- A well-formed Point feature (used as the record that should survive a
run). -/
def featAlpha : Feature :=
  { geometry := .point [121, 14]
  , properties :=
      { name := some "Alpha", ftype := some "School"
      , province := some "Aurora", capacity := RawCap.none } }

/-- A feature whose polygon has an empty first ring: `np.array([])` is
1-D and `coords[:, 0]` raises `IndexError`. -/
def featEmptyRing : Feature :=
  { geometry := .polygon [[]]
  , properties :=
      { name := some "Broken", ftype := some "School"
      , province := some "Aurora", capacity := RawCap.none } }

/-- A feature with an unsupported geometry kind (no coordinate is
produced, no exception raised). -/
def featLineString : Feature :=
  { geometry := .other "LineString"
  , properties :=
      { name := some "Liney", ftype := some "Road"
      , province := some "Aurora", capacity := RawCap.none } }

/-- First of two same-province features (tie-order probe). -/
def featTieA : Feature :=
  { geometry := .point [120, 15]
  , properties :=
      { name := some "A", ftype := some "School"
      , province := some "Zambales", capacity := RawCap.none } }

/-- Second of two same-province features (tie-order probe). -/
def featTieB : Feature :=
  { geometry := .point [121, 16]
  , properties :=
      { name := some "B", ftype := some "School"
      , province := some "Zambales", capacity := RawCap.none } }

/-- A registry row carrying the renamable official-count column. -/
def adminRow1 : AdminRow :=
  { cells := [("Number of Evacuation Center", 42)], last_audit_days_ago := Option.none }

/-- A feature with a present-but-empty name, an absent type, and a
nonempty province (falsy-default probe). -/
def featBlank : Feature :=
  { geometry := .point [1, 2]
  , properties :=
      { name := some "", ftype := Option.none
      , province := some "Q", capacity := RawCap.str "abc" } }

theorem charListLe_total : ∀ x y, charListLe x y = true ∨ charListLe y x = true := by
  intro x
  induction x with
  | nil => intro y; left; rfl
  | cons a as ih =>
      intro y
      cases y with
      | nil => right; rfl
      | cons b bs =>
          simp only [charListLe]
          rcases Nat.lt_trichotomy a.toNat b.toNat with h | h | h
          · left; rw [if_pos h]
          · have h1 : ¬ a.toNat < b.toNat := by omega
            have h2 : ¬ b.toNat < a.toNat := by omega
            rw [if_neg h1, if_neg h2, if_neg h2, if_neg h1]
            exact ih bs
          · right; rw [if_pos h]

theorem charListLe_trans :
    ∀ x y z, charListLe x y = true → charListLe y z = true → charListLe x z = true := by
  intro x
  induction x with
  | nil => intro y z _ _; rfl
  | cons a as ih =>
      intro y z hxy hyz
      cases y with
      | nil => simp [charListLe] at hxy
      | cons b bs =>
          cases z with
          | nil => simp [charListLe] at hyz
          | cons c cs =>
              simp only [charListLe] at hxy hyz ⊢
              by_cases hab : a.toNat < b.toNat <;> by_cases hbc : b.toNat < c.toNat
              · rw [if_pos (by omega : a.toNat < c.toNat)]
              · rw [if_neg hbc] at hyz
                by_cases hcb : c.toNat < b.toNat
                · rw [if_pos hcb] at hyz; exact absurd hyz (by simp)
                · rw [if_neg hcb] at hyz
                  rw [if_pos (by omega : a.toNat < c.toNat)]
              · rw [if_neg hab] at hxy
                by_cases hba : b.toNat < a.toNat
                · rw [if_pos hba] at hxy; exact absurd hxy (by simp)
                · rw [if_neg hba] at hxy
                  rw [if_pos (by omega : a.toNat < c.toNat)]
              · rw [if_neg hab] at hxy
                by_cases hba : b.toNat < a.toNat
                · rw [if_pos hba] at hxy; exact absurd hxy (by simp)
                · rw [if_neg hba] at hxy
                  rw [if_neg hbc] at hyz
                  by_cases hcb : c.toNat < b.toNat
                  · rw [if_pos hcb] at hyz; exact absurd hyz (by simp)
                  · rw [if_neg hcb] at hyz
                    rw [if_neg (by omega : ¬ a.toNat < c.toNat),
                        if_neg (by omega : ¬ c.toNat < a.toNat)]
                    exact ih bs cs hxy hyz

theorem sortByProvince_sorts : IsPandasSortByProvince sortByProvince := by
  intro rows
  haveI : IsTotal GeoRow (fun a b => strLe a.province b.province = true) :=
    ⟨fun a b => charListLe_total _ _⟩
  haveI : IsTrans GeoRow (fun a b => strLe a.province b.province = true) :=
    ⟨fun a b c => charListLe_trans _ _ _⟩
  exact ⟨List.perm_insertionSort _ rows, List.sorted_insertionSort _ rows⟩

theorem revSortByProvince_sorts : IsPandasSortByProvince revSortByProvince := by
  intro rows
  have h := sortByProvince_sorts rows.reverse
  exact ⟨h.1.trans rows.reverse_perm, h.2⟩

theorem assembleRows_length {occs dates : Nat → Nat} :
    ∀ {i : Nat} {fs : List Feature} {rows : List GeoRow},
      assembleRows occs dates i fs = .ok rows → rows.length = fs.length := by
  intro i fs
  induction fs generalizing i with
  | nil => intro rows h; cases h; rfl
  | cons f fs ih =>
      intro rows h
      unfold assembleRows at h
      cases h1 : assembleRow occs dates i f with
      | error e => rw [h1] at h; exact absurd h (by simp)
      | ok r =>
          rw [h1] at h
          cases h2 : assembleRows occs dates (i + 1) fs with
          | error e => rw [h2] at h; exact absurd h (by simp)
          | ok rs =>
              rw [h2] at h
              cases h
              simpa using ih h2

theorem mem_assembleRows {occs dates : Nat → Nat} :
    ∀ {i : Nat} {fs : List Feature} {rows : List GeoRow} {r : GeoRow},
      assembleRows occs dates i fs = .ok rows → r ∈ rows →
      ∃ j f, f ∈ fs ∧ assembleRow occs dates j f = .ok r := by
  intro i fs
  induction fs generalizing i with
  | nil => intro rows r h hr; cases h; simp at hr
  | cons f fs ih =>
      intro rows r h hr
      unfold assembleRows at h
      cases h1 : assembleRow occs dates i f with
      | error e => rw [h1] at h; exact absurd h (by simp)
      | ok r0 =>
          rw [h1] at h
          cases h2 : assembleRows occs dates (i + 1) fs with
          | error e => rw [h2] at h; exact absurd h (by simp)
          | ok rs =>
              rw [h2] at h
              cases h
              rcases List.mem_cons.mp hr with hr0 | hrs
              · exact ⟨i, f, List.mem_cons_self f fs, by rw [h1, hr0]⟩
              · rcases ih h2 hrs with ⟨j, g, hg, hrow⟩
                exact ⟨j, g, List.mem_cons_of_mem f hg, hrow⟩

theorem assembleRow_ok {occs dates : Nat → Nat} {i : Nat} {f : Feature} {r : GeoRow}
    (h : assembleRow occs dates i f = .ok r) :
    ∃ coord, resolve_geometry f.geometry = .ok coord ∧
      0 < 3 * parse_capacity f.properties.capacity / 2 ∧ r = mkRow occs dates i f coord := by
  unfold assembleRow at h
  cases hres : resolve_geometry f.geometry with
  | error e => rw [hres] at h; exact absurd h (by simp)
  | ok coord =>
      rw [hres] at h
      dsimp only at h
      by_cases hhi : 0 < 3 * parse_capacity f.properties.capacity / 2
      · rw [if_pos hhi] at h
        cases h
        exact ⟨coord, rfl, hhi, rfl⟩
      · rw [if_neg hhi] at h
        exact absurd h (by simp)

theorem load_data_geo_error (sorter : List GeoRow → List GeoRow) (occs dates audits : Nat → Nat)
    (e : String) (excelSrc : Except String (List AdminRow)) :
    load_data sorter occs dates audits (.error e) excelSrc =
      { df_geo := [], df_admin := [], diag := some ("Critical Data Error: " ++ e) } := rfl

theorem load_data_assemble_error {sorter : List GeoRow → List GeoRow}
    {occs dates audits : Nat → Nat} {fs : List Feature} {e : String}
    (excelSrc : Except String (List AdminRow)) (h : assembleRows occs dates 0 fs = .error e) :
    load_data sorter occs dates audits (.ok fs) excelSrc =
      { df_geo := [], df_admin := [], diag := some ("Critical Data Error: " ++ e) } := by
  unfold load_data load_dataE
  dsimp only
  rw [h]

theorem load_data_empty_rows {sorter : List GeoRow → List GeoRow}
    {occs dates audits : Nat → Nat} {fs : List Feature}
    (excelSrc : Except String (List AdminRow)) (h : assembleRows occs dates 0 fs = .ok []) :
    load_data sorter occs dates audits (.ok fs) excelSrc =
      { df_geo := [], df_admin := [],
        diag := some "Critical Data Error: KeyError: lat, lon" } := by
  unfold load_data load_dataE
  dsimp only
  rw [h]
  rfl

theorem load_data_ok {sorter : List GeoRow → List GeoRow}
    {occs dates audits : Nat → Nat} {fs : List Feature} {rows : List GeoRow}
    {ex : List AdminRow}
    (h : assembleRows occs dates 0 fs = .ok rows) (hne : rows ≠ []) :
    load_data sorter occs dates audits (.ok fs) (.ok ex) =
      { df_geo := sorter (rows.filter coordP)
      , df_admin := normalizeRegistry audits ex
      , diag := Option.none } := by
  unfold load_data load_dataE dropnaLatLon
  dsimp only
  rw [h]
  dsimp only
  rw [if_neg (by simpa using hne)]

theorem load_data_excel_error {sorter : List GeoRow → List GeoRow}
    {occs dates audits : Nat → Nat} {fs : List Feature} {rows : List GeoRow} {e : String}
    (h : assembleRows occs dates 0 fs = .ok rows) (hne : rows ≠ []) :
    load_data sorter occs dates audits (.ok fs) (.error e) =
      { df_geo := [], df_admin := [], diag := some ("Critical Data Error: " ++ e) } := by
  unfold load_data load_dataE dropnaLatLon
  dsimp only
  rw [h]
  dsimp only
  rw [if_neg (by simpa using hne)]


theorem splitOnChar_ne_nil (c : Char) : ∀ l : List Char, splitOnChar c l ≠ [] := by
  intro l
  induction l with
  | nil => simp [splitOnChar]
  | cons x xs ih =>
      simp only [splitOnChar]
      by_cases hx : x = c
      · rw [if_pos hx]; simp
      · rw [if_neg hx]
        cases h : splitOnChar c xs with
        | nil => simp
        | cons a b => simp

theorem not_mem_of_mem_splitOnChar {c : Char} :
    ∀ {l p : List Char}, p ∈ splitOnChar c l → c ∉ p := by
  intro l
  induction l with
  | nil =>
      intro p hp
      simp [splitOnChar] at hp
      subst hp; simp
  | cons x xs ih =>
      intro p hp
      simp only [splitOnChar] at hp
      by_cases hx : x = c
      · rw [if_pos hx] at hp
        rcases List.mem_cons.mp hp with h0 | h1
        · subst h0; simp
        · exact ih h1
      · rw [if_neg hx] at hp
        cases hsp : splitOnChar c xs with
        | nil => exact absurd hsp (splitOnChar_ne_nil c xs)
        | cons hh tt =>
            rw [hsp] at hp
            rcases List.mem_cons.mp hp with h0 | h1
            · subst h0
              intro hm
              rcases List.mem_cons.mp hm with h2 | h3
              · exact hx h2.symm
              · exact ih (hsp ▸ List.mem_cons_self hh tt) h3
            · exact ih (hsp ▸ List.mem_cons_of_mem hh h1)

theorem splitOnChar_of_not_mem {c : Char} : ∀ {l : List Char}, c ∉ l → splitOnChar c l = [l] := by
  intro l
  induction l with
  | nil => intro _; rfl
  | cons x xs ih =>
      intro h
      have hx : ¬ x = c := fun e => h (by rw [e]; exact List.mem_cons_self c xs)
      have hxs : c ∉ xs := fun hm => h (List.mem_cons_of_mem x hm)
      simp only [splitOnChar, if_neg hx, ih hxs]

theorem splitOnChar_append {c : Char} {ys : List Char} :
    ∀ {xs : List Char}, c ∉ xs → splitOnChar c (xs ++ c :: ys) = xs :: splitOnChar c ys := by
  intro xs
  induction xs with
  | nil => intro _; simp [splitOnChar]
  | cons x xs ih =>
      intro h
      have hx : ¬ x = c := fun e => h (by rw [e]; exact List.mem_cons_self c xs)
      have hxs : c ∉ xs := fun hm => h (List.mem_cons_of_mem x hm)
      rw [List.cons_append]
      simp only [splitOnChar, if_neg hx, List.append_eq, ih hxs]

theorem pyInt_nonneg_of_not_dash {s : String} (hnd : '-' ∉ s.data) :
    ∀ {v : Int}, pyInt s = some v → 0 ≤ v := by
  intro v h
  unfold pyInt at h
  cases hd : s.data with
  | nil => rw [hd] at h; exact absurd h (by simp)
  | cons c rest =>
      rw [hd] at h
      dsimp only at h
      have hc : ¬ c = '-' := fun e => hnd (hd ▸ (e ▸ List.mem_cons_self c rest))
      rw [if_neg hc] at h
      by_cases hp : c = '+'
      · rw [if_pos hp] at h
        by_cases hdig : (!rest.isEmpty && rest.all Char.isDigit) = true
        · rw [if_pos hdig] at h
          cases h
          exact Int.ofNat_nonneg _
        · rw [if_neg hdig] at h; exact absurd h (by simp)
      · rw [if_neg hp] at h
        by_cases hdig : (c :: rest).all Char.isDigit = true
        · rw [if_pos hdig] at h
          cases h
          exact Int.ofNat_nonneg _
        · rw [if_neg hdig] at h; exact absurd h (by simp)

theorem not_dash_of_digits {s : String} (h : pyIsDigit s = true) : '-' ∉ s.data := by
  intro hm
  unfold pyIsDigit at h
  have hall := (Bool.and_eq_true _ _ |>.mp h).2
  have := List.all_eq_true.mp hall '-' hm
  exact absurd this (by decide)

theorem pyInt_of_digits {s : String} (h : pyIsDigit s = true) :
    pyInt s = some (intOfDigitStr s) := by
  unfold pyIsDigit at h
  unfold pyInt intOfDigitStr
  cases hd : s.data with
  | nil => rw [hd] at h; simp at h
  | cons c rest =>
      rw [hd] at h
      have hall : (c :: rest).all Char.isDigit = true := (Bool.and_eq_true _ _ |>.mp h).2
      have hcdig : c.isDigit = true := (Bool.and_eq_true _ _ |>.mp ((List.all_cons).symm ▸ hall)).1
      have hc1 : ¬ c = '-' := fun e => by rw [e] at hcdig; exact absurd hcdig (by decide)
      have hc2 : ¬ c = '+' := fun e => by rw [e] at hcdig; exact absurd hcdig (by decide)
      dsimp only
      rw [if_neg hc1, if_neg hc2, if_pos hall]

theorem pyTruthy_of_mem {s : String} {c : Char} (h : c ∈ s.data) :
    pyTruthy (.str s) = true := by
  have hne : s.data ≠ [] := fun h0 => by rw [h0] at h; exact absurd h (List.not_mem_nil c)
  unfold pyTruthy
  dsimp only
  cases hd : s.data with
  | nil => exact absurd hd hne
  | cons a b => rfl

theorem parse_capacity_range_eq {s : String} (h2 : pyIsDigit s = false)
    (h3 : s.data.contains '-' = true) :
    parse_capacity (.str s) =
      (match pyInt ((pySplit s '-').getD 0 ""), pyInt ((pySplit s '-').getD 1 "") with
       | some a, some b => Int.fdiv (a + b) 2
       | _, _ => 100) := by
  have hmem : '-' ∈ s.data := List.elem_iff.mp h3
  have h1 : pyTruthy (.str s) = true := pyTruthy_of_mem hmem
  unfold parse_capacity
  rw [if_pos h1]
  have hps : pyStr (.str s) = s := rfl
  rw [hps, if_neg (by rw [h2]; simp), if_pos h3]

/-- C4 (amended). For every raw capacity input (absent, string, or other
value), the Capacity Parser terminates without raising an exception (it is
a total function: every parse failure is swallowed by its `try/except`)
and returns a NONNEGATIVE integer, defaulting to 100 when the input is
absent or unparseable: conjunct 2 covers absent/falsy inputs, conjunct 3
truthy strings matching none of the three recognized shapes (no digits-only
form, no `-`, no `">500"` marker, e.g. "abc"), conjunct 4 non-string inputs
whose rendering contains a `-` (negative integers, where `.split` raises
`AttributeError` into the swallowed `except`), and conjunct 5 range strings
whose first two split components do not both parse as integers. It is not
strictly positive on all inputs: the digit string "0" yields 0 (see the
counterexample). -/
theorem C4_capacity_parser_totality (raw : RawCap) :
    0 ≤ parse_capacity raw ∧
    (pyTruthy raw = false → parse_capacity raw = 100) ∧
    (∀ s, raw = .str s → pyIsDigit s = false → s.data.contains '-' = false →
      strContains s ">500" = false → parse_capacity raw = 100) ∧
    (∀ n, raw = .int n → n < 0 → parse_capacity raw = 100) ∧
    (∀ s, raw = .str s → pyIsDigit s = false → s.data.contains '-' = true →
      (pyInt ((pySplit s '-').getD 0 "") = Option.none ∨
        pyInt ((pySplit s '-').getD 1 "") = Option.none) →
      parse_capacity raw = 100) := by
  refine ⟨?_, ?_, ?_, ?_, ?_⟩
  · unfold parse_capacity
    by_cases h1 : pyTruthy raw = true
    · rw [if_pos h1]
      by_cases h2 : pyIsDigit (pyStr raw) = true
      · rw [if_pos h2]
        cases raw with
        | none => norm_num
        | str s => exact Int.ofNat_nonneg _
        | int n =>
            cases n with
            | ofNat m => exact Int.ofNat_nonneg m
            | negSucc m =>
                exfalso
                have hps : pyStr (RawCap.int (Int.negSucc m)) = "-" ++ toString (m + 1) := rfl
                have hdm : ("-" : String).data = ['-'] := rfl
                have hd2 : ('-').isDigit = false := rfl
                rw [hps] at h2
                simp [pyIsDigit, String.data_append, hdm, hd2] at h2
      · rw [if_neg h2]
        by_cases h3 : (pyStr raw).data.contains '-' = true
        · rw [if_pos h3]
          cases raw with
          | none => norm_num
          | int n => norm_num
          | str s =>
              dsimp only
              have key : ∀ k : Nat, ∀ v : Int,
                  pyInt ((pySplit s '-').getD k "") = some v → 0 ≤ v := by
                intro k v hv
                by_cases hk : k < (pySplit s '-').length
                · rw [List.getD_eq_getElem _ _ hk] at hv
                  have hm := List.getElem_mem hk
                  rcases List.mem_map.mp hm with ⟨p, hp, he⟩
                  rw [← he] at hv
                  exact pyInt_nonneg_of_not_dash (not_mem_of_mem_splitOnChar hp) hv
                · rw [List.getD_eq_default _ _ (by omega)] at hv
                  rw [show pyInt "" = Option.none from rfl] at hv
                  exact absurd hv (by simp)
              cases ha : pyInt ((pySplit s '-').getD 0 "") with
              | none =>
                  cases hb : pyInt ((pySplit s '-').getD 1 "") with
                  | none => dsimp only; norm_num
                  | some b => dsimp only; norm_num
              | some a =>
                  cases hb : pyInt ((pySplit s '-').getD 1 "") with
                  | none => dsimp only; norm_num
                  | some b =>
                      dsimp only
                      exact Int.fdiv_nonneg (add_nonneg (key 0 a ha) (key 1 b hb)) (by norm_num)
        · rw [if_neg h3]
          split_ifs <;> norm_num
    · rw [if_neg h1]; norm_num
  · intro h0
    unfold parse_capacity
    rw [if_neg (by rw [h0]; simp)]
  · intro s hraw h2 h3 h5
    subst hraw
    by_cases h1 : pyTruthy (RawCap.str s) = true
    · unfold parse_capacity
      rw [if_pos h1, show pyStr (.str s) = s from rfl,
          if_neg (by rw [h2]; simp), if_neg (by rw [h3]; simp), if_neg (by rw [h5]; simp)]
    · unfold parse_capacity
      rw [if_neg h1]
  · intro n hraw hneg
    subst hraw
    cases n with
    | ofNat m => exact absurd hneg (Int.not_lt.mpr (Int.ofNat_nonneg m))
    | negSucc m =>
        have hps : pyStr (RawCap.int (Int.negSucc m)) = "-" ++ toString (m + 1) := rfl
        have hdm : ("-" : String).data = ['-'] := rfl
        have hd2 : ('-').isDigit = false := rfl
        have h1 : pyTruthy (RawCap.int (Int.negSucc m)) = true := by
          unfold pyTruthy
          simp [bne_iff_ne]
        have h2 : pyIsDigit (pyStr (RawCap.int (Int.negSucc m))) = false := by
          rw [hps]
          simp [pyIsDigit, String.data_append, hdm, hd2]
        have h3 : (pyStr (RawCap.int (Int.negSucc m))).data.contains '-' = true := by
          rw [hps, String.data_append, hdm]
          exact List.elem_iff.mpr (List.mem_append_left _ (List.mem_cons_self '-' []))
        unfold parse_capacity
        rw [if_pos h1, if_neg (by rw [h2]; simp), if_pos h3]
  · intro s hraw h2 h3 hfail
    subst hraw
    rw [parse_capacity_range_eq h2 h3]
    rcases hfail with hf | hf
    · rw [hf]
    · rw [hf]
      cases pyInt ((pySplit s '-').getD 0 "") <;> rfl

/-- C4 witness: the theorem applied at the absent input, at the truthy
unparseable string "abc", at the negative integer -5, and at the range
string "5--3" whose second split component is empty. -/
theorem C4_witness :
    0 ≤ parse_capacity RawCap.none ∧ parse_capacity RawCap.none = 100 ∧
    parse_capacity (RawCap.str "abc") = 100 ∧
    parse_capacity (RawCap.int (-5)) = 100 ∧
    parse_capacity (RawCap.str "5--3") = 100 :=
  ⟨(C4_capacity_parser_totality RawCap.none).1,
   (C4_capacity_parser_totality RawCap.none).2.1 rfl,
   (C4_capacity_parser_totality (RawCap.str "abc")).2.2.1 "abc" rfl
     (by decide) (by decide) (by decide),
   (C4_capacity_parser_totality (RawCap.int (-5))).2.2.2.1 (-5) rfl (by decide),
   (C4_capacity_parser_totality (RawCap.str "5--3")).2.2.2.2 "5--3" rfl
     (by decide) (by decide) (Or.inr (by decide))⟩

/-- C4 counterexample to strict positivity as claimed: the truthy digit
string "0" parses to 0, which is not strictly greater than 0. -/
theorem C4_positive_counterexample :
    parse_capacity (RawCap.str "0") = 0 ∧ ¬ 0 < parse_capacity (RawCap.str "0") := by decide

/-- C5 (amended). The range branch does NOT split once on the first `-`:
it splits on EVERY `-` and uses the first two components
(`raw_cap.split('-')[0]` and `raw_cap.split('-')[1]`). First conjunct: for
every string hitting the branch, the result is the floor-average of the
`pyInt` parses of the first two components, 100 when either fails. Second
conjunct: for two pure digit strings `A`, `B`, input `"A-B"` yields
`(A + B) // 2`. -/
theorem C5_range_branch (s sa sb : String)
    (h2 : pyIsDigit s = false) (h3 : s.data.contains '-' = true)
    (ha : pyIsDigit sa = true) (hb : pyIsDigit sb = true) :
    parse_capacity (.str s) =
      (match pyInt ((pySplit s '-').getD 0 ""), pyInt ((pySplit s '-').getD 1 "") with
       | some a, some b => Int.fdiv (a + b) 2
       | _, _ => 100) ∧
    parse_capacity (.str (sa ++ "-" ++ sb)) =
      Int.fdiv (intOfDigitStr sa + intOfDigitStr sb) 2 := by
  constructor
  · exact parse_capacity_range_eq h2 h3
  · have hsa : '-' ∉ sa.data := not_dash_of_digits ha
    have hsb : '-' ∉ sb.data := not_dash_of_digits hb
    have hdm : ("-" : String).data = ['-'] := rfl
    have hdata : (sa ++ "-" ++ sb).data = sa.data ++ '-' :: sb.data := by
      rw [String.data_append, String.data_append, hdm]
      simp
    have hdig : pyIsDigit (sa ++ "-" ++ sb) = false := by
      unfold pyIsDigit
      rw [hdata]
      have hd2 : ('-').isDigit = false := rfl
      simp [List.all_append, hd2]
    have hcon : (sa ++ "-" ++ sb).data.contains '-' = true := by
      rw [hdata]
      exact List.elem_iff.mpr (by simp)
    have hsplit : pySplit (sa ++ "-" ++ sb) '-' = [sa, sb] := by
      unfold pySplit
      rw [hdata, splitOnChar_append hsa, splitOnChar_of_not_mem hsb]
      exact rfl
    rw [parse_capacity_range_eq hdig hcon, hsplit,
        show ([sa, sb].getD 0 "") = sa from rfl, show ([sa, sb].getD 1 "") = sb from rfl,
        pyInt_of_digits ha, pyInt_of_digits hb]

/-- C5 witness: the theorem applied at `"50-150"` (and, for the first
conjunct, at the same string). -/
theorem C5_witness :
    parse_capacity (.str "50-150") =
      (match pyInt ((pySplit "50-150" '-').getD 0 ""), pyInt ((pySplit "50-150" '-').getD 1 "") with
       | some a, some b => Int.fdiv (a + b) 2
       | _, _ => 100) ∧
    parse_capacity (.str ("50" ++ "-" ++ "150")) =
      Int.fdiv (intOfDigitStr "50" + intOfDigitStr "150") 2 :=
  C5_range_branch "50-150" "50" "150" (by decide) (by decide) (by decide) (by decide)

/-- C5 counterexample to the split-once reading: on `"10-20-30"` the code
returns `(10 + 20) // 2 = 15`, while splitting once on the first `-`
(sides `"10"` and `"20-30"`, the right one unparseable) would give the
claimed fallback 100. -/
theorem C5_splitOnce_counterexample :
    parse_capacity (.str "10-20-30") = 15 ∧
    parse_capacity_spec_splitOnce "10-20-30" = 100 ∧
    parse_capacity (.str "10-20-30") ≠ parse_capacity_spec_splitOnce "10-20-30" := by decide

/-- C6 (amended). A capacity input containing the marker `">500"` yields
600 only when the string contains no `-` at all: the `'-' in ...` branch
is tested FIRST, so a string containing both (for example `">500-600"`,
see the counterexample) takes the range branch instead. -/
theorem C6_gt500_marker (s : String) (h5 : strContains s ">500" = true)
    (hd : s.data.contains '-' = false) : parse_capacity (.str s) = 600 := by
  have h5copy := h5
  unfold strContains at h5copy
  rcases List.any_eq_true.mp h5copy with ⟨i, hi, hpre⟩
  have hpre2 : (">500" : String).data <+: s.data.drop i := List.isPrefixOf_iff_prefix.mp hpre
  have hgtd : (">500" : String).data = ['>', '5', '0', '0'] := rfl
  rcases hpre2 with ⟨t, ht⟩
  have hgt : '>' ∈ s.data := by
    apply List.drop_subset i s.data
    rw [← ht, hgtd]
    simp
  have h1 : pyTruthy (.str s) = true := pyTruthy_of_mem hgt
  have h2 : pyIsDigit s = false := by
    refine Bool.eq_false_iff.mpr (fun hpd => ?_)
    have := List.all_eq_true.mp ((Bool.and_eq_true _ _).mp hpd).2 '>' hgt
    exact absurd this (by decide)
  unfold parse_capacity
  rw [if_pos h1, show pyStr (.str s) = s from rfl,
      if_neg (by rw [h2]; simp), if_neg (by rw [hd]; simp), if_pos h5]


/-- C6 witness: the theorem applied at the plain marker string. -/
theorem C6_witness :
    strContains ">500" ">500" = true ∧ parse_capacity (.str ">500") = 600 :=
  ⟨by decide, C6_gt500_marker ">500" (by decide) (by decide)⟩

/-- C6 counterexample to the claim as stated: `">500-600"` contains the
marker, yet the code returns 100 (the range branch wins, and `int(">500")`
fails), not 600. -/
theorem C6_counterexample :
    strContains ">500-600" ">500" = true ∧ parse_capacity (.str ">500-600") = 100 ∧
    parse_capacity (.str ">500-600") ≠ 600 := by decide

theorem cap_status_over_iff {occ cap : Int} :
    cap_status occ cap = "Overcrowded (>100%)" ↔ cap < occ := by
  unfold cap_status
  split_ifs with hA hB
  · exact iff_of_true rfl hA
  · exact iff_of_false (by decide) hA
  · exact iff_of_false (by decide) hA

theorem cap_status_near_iff {occ cap : Int} :
    cap_status occ cap = "Near Full (80-99%)" ↔ (4 * cap ≤ 5 * occ ∧ occ ≤ cap) := by
  unfold cap_status
  split_ifs with hA hB
  · exact iff_of_false (by decide) (by omega)
  · exact iff_of_true rfl (by omega)
  · exact iff_of_false (by decide) (by omega)

theorem cap_status_avail_iff {occ cap : Int} :
    cap_status occ cap = "Available (<80%)" ↔ (occ ≤ cap ∧ 5 * occ < 4 * cap) := by
  unfold cap_status
  split_ifs with hA hB
  · exact iff_of_false (by decide) (by omega)
  · exact iff_of_false (by decide) (by omega)
  · exact iff_of_true rfl (by omega)

theorem health_crit_iff {occ cap : Int} :
    health_risk occ cap = "CRITICAL: High Infection Risk" ↔ cap < occ := by
  unfold health_risk
  split_ifs with hA hB
  · exact iff_of_true rfl hA
  · exact iff_of_false (by decide) hA
  · exact iff_of_false (by decide) hA

theorem health_warn_iff {occ cap : Int} :
    health_risk occ cap = "WARNING: Elevated Density" ↔ (4 * cap ≤ 5 * occ ∧ occ ≤ cap) := by
  unfold health_risk
  split_ifs with hA hB
  · exact iff_of_false (by decide) (by omega)
  · exact iff_of_true rfl (by omega)
  · exact iff_of_false (by decide) (by omega)

theorem health_safe_iff {occ cap : Int} :
    health_risk occ cap = "SAFE: Social Distancing Possible" ↔ (occ ≤ cap ∧ 5 * occ < 4 * cap) := by
  unfold health_risk
  split_ifs with hA hB
  · exact iff_of_false (by decide) (by omega)
  · exact iff_of_false (by decide) (by omega)
  · exact iff_of_true rfl (by omega)

/-- C3 (confirmed). For integer occupancy `occ` and capacity `cap > 0`
with exact ratio `occ / cap : ℚ`: the logistics status is Overcrowded iff
ratio > 1, Near Full iff ratio ∈ [0.8, 1], Available iff ratio < 0.8; and
the health scheme uses the identical thresholds, so the two labelings are
in lock-step tier by tier. -/
theorem C3_dual_status_lockstep (occ cap : Int) (hcap : 0 < cap) :
    (cap_status occ cap = "Overcrowded (>100%)" ↔ 1 < (occ : ℚ) / (cap : ℚ)) ∧
    (cap_status occ cap = "Near Full (80-99%)" ↔
      (4 / 5 : ℚ) ≤ (occ : ℚ) / (cap : ℚ) ∧ (occ : ℚ) / (cap : ℚ) ≤ 1) ∧
    (cap_status occ cap = "Available (<80%)" ↔ (occ : ℚ) / (cap : ℚ) < 4 / 5) ∧
    (cap_status occ cap = "Overcrowded (>100%)" ↔
      health_risk occ cap = "CRITICAL: High Infection Risk") ∧
    (cap_status occ cap = "Near Full (80-99%)" ↔
      health_risk occ cap = "WARNING: Elevated Density") ∧
    (cap_status occ cap = "Available (<80%)" ↔
      health_risk occ cap = "SAFE: Social Distancing Possible") := by
  have hq : (0 : ℚ) < (cap : ℚ) := by exact_mod_cast hcap
  have k1 : (1 : ℚ) < (occ : ℚ) / (cap : ℚ) ↔ cap < occ := by
    rw [one_lt_div hq]; exact Int.cast_lt
  have k2 : (4 / 5 : ℚ) ≤ (occ : ℚ) / (cap : ℚ) ↔ 4 * cap ≤ 5 * occ := by
    rw [div_le_div_iff₀ (by norm_num) hq, mul_comm ((occ : ℚ)) (5 : ℚ)]
    exact_mod_cast Iff.rfl
  have k3 : (occ : ℚ) / (cap : ℚ) ≤ 1 ↔ occ ≤ cap := by
    rw [div_le_one hq]; exact Int.cast_le
  have k4 : (occ : ℚ) / (cap : ℚ) < 4 / 5 ↔ 5 * occ < 4 * cap := by
    rw [← not_le, k2]; omega
  refine ⟨?_, ?_, ?_, ?_, ?_, ?_⟩
  · rw [cap_status_over_iff, k1]
  · rw [cap_status_near_iff, k2, k3]
  · rw [cap_status_avail_iff, k4]
    exact ⟨fun h => h.2, fun h => ⟨by omega, h⟩⟩
  · rw [cap_status_over_iff, health_crit_iff]
  · rw [cap_status_near_iff, health_warn_iff]
  · rw [cap_status_avail_iff, health_safe_iff]

/-- C3 witness: the theorem applied at occupancy 5, capacity 4 (ratio
1.25, Overcrowded/Critical). -/
theorem C3_witness :
    (cap_status 5 4 = "Overcrowded (>100%)" ↔ 1 < ((5 : Int) : ℚ) / ((4 : Int) : ℚ)) ∧
    (cap_status 5 4 = "Overcrowded (>100%)" ↔
      health_risk 5 4 = "CRITICAL: High Infection Risk") :=
  ⟨(C3_dual_status_lockstep 5 4 (by norm_num)).1,
   (C3_dual_status_lockstep 5 4 (by norm_num)).2.2.2.1⟩

theorem load_data_geo_shape (sorter : List GeoRow → List GeoRow) (occs dates audits : Nat → Nat)
    (gs : Except String (List Feature)) (es : Except String (List AdminRow)) :
    (load_data sorter occs dates audits gs es).df_geo = [] ∨
    ∃ fs rows, gs = .ok fs ∧ assembleRows occs dates 0 fs = .ok rows ∧ rows ≠ [] ∧
      (load_data sorter occs dates audits gs es).df_geo = sorter (rows.filter coordP) := by
  cases gs with
  | error e => left; rfl
  | ok fs =>
      cases h : assembleRows occs dates 0 fs with
      | error e => left; rw [load_data_assemble_error es h]
      | ok rows =>
          by_cases hne : rows = []
          · left; subst hne; rw [load_data_empty_rows es h]
          · cases es with
            | error e => left; rw [load_data_excel_error h hne]
            | ok ex =>
                right
                exact ⟨fs, rows, rfl, h, hne, by rw [load_data_ok h hne]⟩

theorem mem_load_data_geo {sorter : List GeoRow → List GeoRow} {occs dates audits : Nat → Nat}
    {gs : Except String (List Feature)} {es : Except String (List AdminRow)} {r : GeoRow}
    (hs : IsPandasSortByProvince sorter)
    (hr : r ∈ (load_data sorter occs dates audits gs es).df_geo) :
    ∃ j f fs, gs = .ok fs ∧ f ∈ fs ∧ assembleRow occs dates j f = .ok r ∧ coordP r = true := by
  rcases load_data_geo_shape sorter occs dates audits gs es with h0 | ⟨fs, rows, hgs, hasm, hne, hgeo⟩
  · rw [h0] at hr; simp at hr
  · rw [hgeo] at hr
    have hperm := (hs (rows.filter coordP)).1
    have hr2 : r ∈ rows.filter coordP := hperm.mem_iff.mp hr
    have hrf := List.mem_filter.mp hr2
    rcases mem_assembleRows hasm hrf.1 with ⟨j, f, hf, hrow⟩
    exact ⟨j, f, fs, hgs, hf, hrow, hrf.2⟩

/-- C7 (confirmed). First conjunct: every row of every (non-failed)
pipeline output has `0 ≤ current_evacuees < floor(capacity * 1.5)`
(`3 * capacity / 2` here; rows only exist when that bound is positive,
since `randint` would raise otherwise). Second conjunct: with
`np.random.randint(0, hi)` modelled as reduction of a uniform seed, the
occupancy is uniform over `[0, floor(cap * 1.5))`: each value in the range
is hit by exactly one seed per period of seeds. -/
theorem C7_occupancy_range_uniform :
    (∀ sorter (occs dates audits : Nat → Nat) geoSrc excelSrc r,
      IsPandasSortByProvince sorter →
      r ∈ (load_data sorter occs dates audits geoSrc excelSrc).df_geo →
      0 ≤ r.current_evacuees ∧ r.current_evacuees < 3 * r.capacity / 2) ∧
    (∀ cap : Int, 1 ≤ cap → ∀ s : Nat,
      (0 ≤ np_random_randint s (3 * cap / 2) ∧
        np_random_randint s (3 * cap / 2) < 3 * cap / 2) ∧
      ∀ v : Int, 0 ≤ v → v < 3 * cap / 2 →
        (Finset.filter (fun n : Nat => np_random_randint n (3 * cap / 2) = v)
          (Finset.range (3 * cap / 2).toNat)).card = 1) := by
  constructor
  · intro sorter occs dates audits geoSrc excelSrc r hs hr
    rcases mem_load_data_geo hs hr with ⟨j, f, fs, _, _, hrow, _⟩
    rcases assembleRow_ok hrow with ⟨coord, _, hhi, hmk⟩
    have hcap : r.capacity = parse_capacity f.properties.capacity := by rw [hmk]; rfl
    have hocc : r.current_evacuees =
        np_random_randint (occs j) (3 * parse_capacity f.properties.capacity / 2) := by
      rw [hmk]; rfl
    rw [hocc, hcap]
    unfold np_random_randint
    exact ⟨Int.emod_nonneg _ (by omega), Int.emod_lt_of_pos _ hhi⟩
  · intro cap hcap s
    have hpos : 0 < 3 * cap / 2 := by omega
    constructor
    · exact ⟨Int.emod_nonneg _ (by omega), Int.emod_lt_of_pos _ hpos⟩
    · intro v hv0 hvlt
      have hset : Finset.filter (fun n : Nat => np_random_randint n (3 * cap / 2) = v)
          (Finset.range (3 * cap / 2).toNat) = {v.toNat} := by
        ext n
        simp only [Finset.mem_filter, Finset.mem_range, Finset.mem_singleton, np_random_randint]
        constructor
        · rintro ⟨hn, hmod⟩
          have hn2 : (n : Int) < 3 * cap / 2 := by omega
          rw [Int.emod_eq_of_lt (Int.ofNat_nonneg n) hn2] at hmod
          omega
        · intro hn
          subst hn
          have hc : ((v.toNat : Nat) : Int) = v := by omega
          refine ⟨by omega, ?_⟩
          rw [hc]
          exact Int.emod_eq_of_lt hv0 hvlt
      rw [hset, Finset.card_singleton]

/-- C7 witness: the row-level bound at a one-feature run, and the
simulator instance at capacity 2, seed 5, value 1. -/
theorem C7_witness :
    (0 ≤ (mkRow zeroStream zeroStream 0 featAlpha (some (121, 14))).current_evacuees ∧
      (mkRow zeroStream zeroStream 0 featAlpha (some (121, 14))).current_evacuees <
        3 * (mkRow zeroStream zeroStream 0 featAlpha (some (121, 14))).capacity / 2) ∧
    (0 ≤ np_random_randint 5 (3 * (2 : Int) / 2) ∧
      np_random_randint 5 (3 * (2 : Int) / 2) < 3 * (2 : Int) / 2) ∧
    (Finset.filter (fun n : Nat => np_random_randint n (3 * (2 : Int) / 2) = 1)
      (Finset.range (3 * (2 : Int) / 2).toNat)).card = 1 :=
  ⟨C7_occupancy_range_uniform.1 sortByProvince zeroStream zeroStream zeroStream
      (.ok [featAlpha]) (.ok []) _ sortByProvince_sorts (by decide),
   (C7_occupancy_range_uniform.2 2 (by norm_num) 5).1,
   (C7_occupancy_range_uniform.2 2 (by norm_num) 5).2 1 (by norm_num) (by norm_num)⟩

/-- C1 (amended). The single `try/except` wraps BOTH sources, so a failure
of either aborts the whole load: if the geographic source cannot be read,
the registry is never attempted; if the registry cannot be read, the
already-computed geographic rows are discarded. Either way BOTH
collections come back empty and the failure is surfaced as the single
diagnostic (never as an escaping exception: `load_data` is total). -/
theorem C1_failure_aborts_both_sources :
    (∀ sorter (occs dates audits : Nat → Nat) e excelSrc,
      load_data sorter occs dates audits (.error e) excelSrc =
        { df_geo := [], df_admin := [], diag := some ("Critical Data Error: " ++ e) }) ∧
    (∀ sorter (occs dates audits : Nat → Nat) fs rows e,
      assembleRows occs dates 0 fs = .ok rows → rows ≠ [] →
      load_data sorter occs dates audits (.ok fs) (.error e) =
        { df_geo := [], df_admin := [], diag := some ("Critical Data Error: " ++ e) }) :=
  ⟨fun sorter occs dates audits e excelSrc =>
      load_data_geo_error sorter occs dates audits e excelSrc,
   fun _ _ _ _ _ _ e h hne => load_data_excel_error h hne⟩

/-- C1 witness: a readable one-feature geographic source with an
unreadable registry. -/
theorem C1_witness :
    load_data sortByProvince zeroStream zeroStream zeroStream
        (.ok [featAlpha]) (.error "missing") =
      { df_geo := [], df_admin := [], diag := some ("Critical Data Error: " ++ "missing") } :=
  C1_failure_aborts_both_sources.2 sortByProvince zeroStream zeroStream zeroStream
    [featAlpha] [mkRow zeroStream zeroStream 0 featAlpha (some (121, 14))] "missing"
    (by decide) (by decide)

/-- C1 counterexample to the claim as stated: the geographic source is
readable and yields a row when the registry loads, yet when only the
registry fails that row is NOT returned — the geographic collection comes
back empty too. -/
theorem C1_counterexample :
    (load_data sortByProvince zeroStream zeroStream zeroStream
        (.ok [featAlpha]) (.ok [])).df_geo ≠ [] ∧
    (load_data sortByProvince zeroStream zeroStream zeroStream
        (.ok [featAlpha]) (.error "registry unreadable")).df_geo = [] ∧
    (load_data sortByProvince zeroStream zeroStream zeroStream
        (.ok [featAlpha]) (.error "registry unreadable")).diag =
      some "Critical Data Error: registry unreadable" := by decide

/-- C2 (amended). An unsupported geometry KIND produces no coordinate, the
row is silently dropped by `dropna` and the other records survive (the
output is a permutation of the coordinate-resolved rows, with no
diagnostic). But a MALFORMED coordinate array (e.g. an empty first ring)
raises inside the loop, aborting the entire load: every record of the run
is lost and the single boundary diagnostic fires. -/
theorem C2_geometry_error_handling :
    (∀ k, resolve_geometry (.other k) = .ok Option.none) ∧
    (∀ rest, resolve_geometry (.polygon ([] :: rest)) =
      .error "IndexError: too many indices for array") ∧
    (∀ sorter (occs dates audits : Nat → Nat) fs rows ex,
      IsPandasSortByProvince sorter →
      assembleRows occs dates 0 fs = .ok rows → rows ≠ [] →
      (load_data sorter occs dates audits (.ok fs) (.ok ex)).diag = Option.none ∧
      (load_data sorter occs dates audits (.ok fs) (.ok ex)).df_geo.Perm
        (rows.filter coordP)) ∧
    (∀ sorter (occs dates audits : Nat → Nat) fs e ex,
      assembleRows occs dates 0 fs = .error e →
      load_data sorter occs dates audits (.ok fs) (.ok ex) =
        { df_geo := [], df_admin := [], diag := some ("Critical Data Error: " ++ e) }) := by
  refine ⟨fun k => rfl, fun rest => rfl, ?_, ?_⟩
  · intro sorter occs dates audits fs rows ex hs h hne
    rw [load_data_ok h hne]
    exact ⟨rfl, (hs (rows.filter coordP)).1⟩
  · intro sorter occs dates audits fs e ex h
    exact load_data_assemble_error (.ok ex) h

/-- C2 witness: a run with one resolvable Point and one unsupported
LineString — no diagnostic, and the output is a permutation of the
coordinate-resolved rows. -/
theorem C2_witness :
    (load_data sortByProvince zeroStream zeroStream zeroStream
        (.ok [featAlpha, featLineString]) (.ok [])).diag = Option.none ∧
    (load_data sortByProvince zeroStream zeroStream zeroStream
        (.ok [featAlpha, featLineString]) (.ok [])).df_geo.Perm
      (([mkRow zeroStream zeroStream 0 featAlpha (some (121, 14)),
         mkRow zeroStream zeroStream 1 featLineString Option.none]).filter coordP) :=
  C2_geometry_error_handling.2.2.1 sortByProvince zeroStream zeroStream zeroStream
    [featAlpha, featLineString]
    [mkRow zeroStream zeroStream 0 featAlpha (some (121, 14)),
     mkRow zeroStream zeroStream 1 featLineString Option.none] []
    sortByProvince_sorts (by decide) (by decide)

/-- C2 counterexample to the claim as stated: with one well-formed Point
and one Polygon whose first ring is empty, the malformed record is not
"dropped with the others produced normally" — the whole run aborts, the
well-formed record is lost, and a diagnostic IS surfaced. -/
theorem C2_counterexample :
    load_data sortByProvince zeroStream zeroStream zeroStream
        (.ok [featAlpha, featEmptyRing]) (.ok []) =
      { df_geo := [], df_admin := [],
        diag := some "Critical Data Error: IndexError: too many indices for array" } ∧
    (load_data sortByProvince zeroStream zeroStream zeroStream
        (.ok [featAlpha]) (.ok [])).df_geo ≠ [] := by decide

/-- C8 (amended). For a non-empty feature collection whose assembly
completes, the output collection is exactly (as a multiset) the assembled
records with resolved coordinates — no surviving entry misses a latitude
or longitude — and it is sorted non-decreasing by province. The TIE ORDER
is not guaranteed: pandas' default `sort_values` kind (quicksort) is not
stable, so equal-province records need not appear in input order (see the
counterexample). -/
theorem C8_drop_and_sort (sorter : List GeoRow → List GeoRow)
    (occs dates audits : Nat → Nat) (fs : List Feature) (rows : List GeoRow)
    (ex : List AdminRow) (hs : IsPandasSortByProvince sorter)
    (hasm : assembleRows occs dates 0 fs = .ok rows) (hne : fs ≠ []) :
    (∀ r ∈ (load_data sorter occs dates audits (.ok fs) (.ok ex)).df_geo,
        r.lat.isSome = true ∧ r.lon.isSome = true) ∧
    SortedByProvince (load_data sorter occs dates audits (.ok fs) (.ok ex)).df_geo ∧
    (load_data sorter occs dates audits (.ok fs) (.ok ex)).df_geo.Perm
      (rows.filter coordP) := by
  have hrne : rows ≠ [] := by
    intro h0
    apply hne
    have := assembleRows_length hasm
    rw [h0] at this
    cases fs with
    | nil => rfl
    | cons a b => simp at this
  rw [load_data_ok hasm hrne]
  refine ⟨?_, (hs (rows.filter coordP)).2, (hs (rows.filter coordP)).1⟩
  intro r hr
  have hr2 : r ∈ rows.filter coordP := ((hs (rows.filter coordP)).1).mem_iff.mp hr
  have := (List.mem_filter.mp hr2).2
  unfold coordP at this
  exact ⟨(Bool.and_eq_true _ _ |>.mp this).1, (Bool.and_eq_true _ _ |>.mp this).2⟩

/-- C8 witness: the sorted-and-filtered shape at a concrete two-feature
run under the stable insertion-sort instantiation of the contract. -/
theorem C8_witness :
    (∀ r ∈ (load_data sortByProvince zeroStream zeroStream zeroStream
        (.ok [featTieA, featTieB]) (.ok [])).df_geo,
        r.lat.isSome = true ∧ r.lon.isSome = true) ∧
    SortedByProvince (load_data sortByProvince zeroStream zeroStream zeroStream
        (.ok [featTieA, featTieB]) (.ok [])).df_geo ∧
    (load_data sortByProvince zeroStream zeroStream zeroStream
        (.ok [featTieA, featTieB]) (.ok [])).df_geo.Perm
      (([mkRow zeroStream zeroStream 0 featTieA (some (120, 15)),
         mkRow zeroStream zeroStream 1 featTieB (some (121, 16))]).filter coordP) :=
  C8_drop_and_sort sortByProvince zeroStream zeroStream zeroStream
    [featTieA, featTieB]
    [mkRow zeroStream zeroStream 0 featTieA (some (120, 15)),
     mkRow zeroStream zeroStream 1 featTieB (some (121, 16))] []
    sortByProvince_sorts (by decide) (by decide)

/-- C8 counterexample to guaranteed stability: `revSortByProvince`
satisfies the full pandas sort contract (sorted permutation by province),
yet on two equal-province records input in order A, B it returns them as
B, A — while another admissible implementation returns A, B. The tie
order is therefore not determined by the code's contract. -/
theorem C8_stability_counterexample :
    IsPandasSortByProvince revSortByProvince ∧
    (load_data revSortByProvince zeroStream zeroStream zeroStream
        (.ok [featTieA, featTieB]) (.ok [])).df_geo.map GeoRow.center_name = ["B", "A"] ∧
    (load_data sortByProvince zeroStream zeroStream zeroStream
        (.ok [featTieA, featTieB]) (.ok [])).df_geo.map GeoRow.center_name = ["A", "B"] :=
  ⟨revSortByProvince_sorts, by decide, by decide⟩

/-- C9 (amended). For an EMPTY feature collection the pipeline does NOT
return an empty collection silently: `pd.DataFrame([])` has no columns, so
`dropna(subset=['lat', 'lon'])` raises `KeyError`, the boundary
diagnostic fires, and the registry source is never processed — both
outputs come back empty with the error surfaced. -/
theorem C9_empty_feature_collection (sorter : List GeoRow → List GeoRow)
    (occs dates audits : Nat → Nat) (excelSrc : Except String (List AdminRow)) :
    load_data sorter occs dates audits (.ok []) excelSrc =
      { df_geo := [], df_admin := [],
        diag := some "Critical Data Error: KeyError: lat, lon" } :=
  load_data_empty_rows excelSrc rfl

/-- C9 counterexample to the claim as stated: with zero features and a
perfectly readable one-row registry, a diagnostic IS surfaced and the
registry is NOT processed (its normalization would have produced a row). -/
theorem C9_counterexample :
    (load_data sortByProvince zeroStream zeroStream zeroStream
        (.ok []) (.ok [adminRow1])).diag ≠ Option.none ∧
    (load_data sortByProvince zeroStream zeroStream zeroStream
        (.ok []) (.ok [adminRow1])).df_admin = [] ∧
    normalizeRegistry zeroStream [adminRow1] ≠ [] := by decide

/-- C10 (confirmed). The `or`-defaulting substitutes "Unnamed Facility",
"Unknown" and "Unspecified" not only for an absent name/type/province but
for any falsy present value — for strings, exactly the empty string —
while a nonempty present string is kept. -/
theorem C10_falsy_defaults (occs dates : Nat → Nat) (i : Nat) (f : Feature) (r : GeoRow)
    (h : assembleRow occs dates i f = .ok r) :
    ((f.properties.name = Option.none ∨ f.properties.name = some "") →
      r.center_name = "Unnamed Facility") ∧
    ((f.properties.ftype = Option.none ∨ f.properties.ftype = some "") →
      r.ftype = "Unknown") ∧
    ((f.properties.province = Option.none ∨ f.properties.province = some "") →
      r.province = "Unspecified") ∧
    (∀ s, f.properties.province = some s → s ≠ "" → r.province = s) := by
  rcases assembleRow_ok h with ⟨coord, _, _, hmk⟩
  subst hmk
  refine ⟨?_, ?_, ?_, ?_⟩
  · rintro (h1 | h1)
    · show pyOr f.properties.name "Unnamed Facility" = "Unnamed Facility"
      rw [h1]
      rfl
    · show pyOr f.properties.name "Unnamed Facility" = "Unnamed Facility"
      rw [h1]
      rfl
  · rintro (h1 | h1)
    · show pyOr f.properties.ftype "Unknown" = "Unknown"
      rw [h1]
      rfl
    · show pyOr f.properties.ftype "Unknown" = "Unknown"
      rw [h1]
      rfl
  · rintro (h1 | h1)
    · show pyOr f.properties.province "Unspecified" = "Unspecified"
      rw [h1]
      rfl
    · show pyOr f.properties.province "Unspecified" = "Unspecified"
      rw [h1]
      rfl
  · intro s hs hne
    show pyOr f.properties.province "Unspecified" = s
    rw [hs]
    unfold pyOr
    dsimp only
    have hcond : ¬ (s.data.isEmpty = true) := by
      intro hh
      apply hne
      apply String.toList_inj.mp
      show s.data = ("" : String).data
      rw [List.isEmpty_iff.mp hh]
    rw [if_neg hcond]

/-- C10 witness: a feature with `name = ""` (present but falsy), an absent
type, and the nonempty province `"Q"`. -/
theorem C10_witness :
    (mkRow zeroStream zeroStream 0 featBlank (some (1, 2))).center_name = "Unnamed Facility" ∧
    (mkRow zeroStream zeroStream 0 featBlank (some (1, 2))).ftype = "Unknown" ∧
    (mkRow zeroStream zeroStream 0 featBlank (some (1, 2))).province = "Q" :=
  ⟨(C10_falsy_defaults zeroStream zeroStream 0 featBlank
      (mkRow zeroStream zeroStream 0 featBlank (some (1, 2))) (by decide)).1 (Or.inr rfl),
   (C10_falsy_defaults zeroStream zeroStream 0 featBlank
      (mkRow zeroStream zeroStream 0 featBlank (some (1, 2))) (by decide)).2.1 (Or.inl rfl),
   (C10_falsy_defaults zeroStream zeroStream 0 featBlank
      (mkRow zeroStream zeroStream 0 featBlank (some (1, 2))) (by decide)).2.2.2 "Q" rfl
     (by decide)⟩
